import Mathlib

/-!
Verification development for the medication-safety engine in `src/main.py`.

The engine is embedded shallowly: Python strings become `List Char`
(`str.lower` maps `Char.toLower` characterwise, `str.strip` drops
whitespace at both ends, the `in` substring test becomes `isSubstr`),
Python lists become Lean lists, the `SeverityFlag` string enum becomes a
closed inductive type (pydantic validates every `InteractionDetail`
against that enum when a response is built, so every record reachable in
a returned analysis carries one of the five tags), and the raising
`analyze_medications` becomes a function into `Except HTTPError _`.
-/

namespace MedChecker

/-- Python strings, modelled as their character lists. -/
abbrev Str := List Char

/-- Python `str.lower`, characterwise (used at src/main.py lines 94-106). -/
def pyLower (s : Str) : Str := s.map Char.toLower

/-- Python `str.strip`: drop whitespace from both ends. -/
def pyStrip (s : Str) : Str :=
  ((s.dropWhile Char.isWhitespace).reverse.dropWhile Char.isWhitespace).reverse

/-- The input normalization `name.lower().strip()` of `find_medication` (line 94). -/
def normalizeName (s : Str) : Str := pyStrip (pyLower s)

/-- Helper for `isSubstr`: `q` is a leading block of `s`. -/
def isPrefixStr : Str → Str → Bool
  | [], _ => true
  | _ :: _, [] => false
  | a :: xs, b :: ys => decide (a = b) && isPrefixStr xs ys

/-- Python `q in s` on strings: `q` occurs contiguously somewhere in `s`. -/
def isSubstr (q : Str) : Str → Bool
  | [] => isPrefixStr q []
  | b :: t => isPrefixStr q (b :: t) || isSubstr q t

/-- The `SeverityFlag` enum (src/main.py lines 42-47). -/
inductive SeverityFlag where
  | BLACK_FLAG
  | RED_FLAG
  | ORANGE_FLAG
  | YELLOW_FLAG
  | GREEN_FLAG
  deriving DecidableEq

/-- The black-box-warning object attached to a drug; the engine reads its
`warning` text (src/main.py line 226-227). -/
structure BlackBoxWarning where
  warning : Str
  deriving DecidableEq

/-- A drug record of the `medications` collection.  The JSON key `class`
is spelled `drug_class` here because `class` is a Lean keyword. -/
structure Drug where
  id : Str
  name : Str
  generic_name : Str
  brand_names : List Str
  drug_class : Str
  black_box_warning : Option BlackBoxWarning
  cyp_metabolism : List Str
  contraindications : List Str
  side_effects : List Str
  deriving DecidableEq

/-- An interaction record (model `InteractionDetail`, src/main.py lines 54-63). -/
structure Interaction where
  drug_a : Str
  drug_b : Str
  severity : SeverityFlag
  mechanism : Str
  description : Str
  clinical_effects : Str
  recommendation : Str
  evidence_level : Str
  source : Str
  deriving DecidableEq

/-- The `DrugProfile` response model (src/main.py lines 65-73). -/
structure DrugProfile where
  name : Str
  generic_name : Str
  brand_names : List Str
  drug_class : Str
  black_box_warning : Option BlackBoxWarning
  cyp_metabolism : List Str
  contraindications : List Str
  side_effects : List Str
  deriving DecidableEq

/-- The `risk_summary` dictionary (src/main.py lines 189-198). -/
structure RiskSummary where
  total_medications : Nat
  total_interactions : Nat
  black_flags : Nat
  red_flags : Nat
  orange_flags : Nat
  yellow_flags : Nat
  green_flags : Nat
  medications_with_black_box_warnings : Nat
  deriving DecidableEq

/-- The `SafetyAnalysisResponse` model (src/main.py lines 75-85). -/
structure SafetyAnalysisResponse where
  analyzed_medications : List DrugProfile
  interactions : List Interaction
  black_flags : List Interaction
  red_flags : List Interaction
  orange_flags : List Interaction
  yellow_flags : List Interaction
  green_flags : List Interaction
  overall_risk_level : Str
  risk_summary : RiskSummary
  clinical_recommendations : List Str
  deriving DecidableEq

/-- An `HTTPException` raised by the engine. -/
structure HTTPError where
  status : Nat
  detail : Str
  deriving DecidableEq

/-- Post-construction state of `MedicationSafetyEngine`: the id-keyed drug
dict in its (insertion-order) iteration order, and the interaction list. -/
structure Engine where
  medications : List Drug
  interactions : List Interaction
  deriving DecidableEq

/-- One step of the Python dict comprehension `{med.id : med for med in list}`:
a repeated id keeps its first position but takes the latest value. -/
def dictInsert (acc : List Drug) (m : Drug) : List Drug :=
  if acc.any (fun x => decide (x.id = m.id)) then
    acc.map (fun x => if x.id = m.id then m else x)
  else acc ++ [m]

/-- `MedicationSafetyEngine.__init__` (src/main.py lines 88-90). -/
def mkEngine (meds : List Drug) (inters : List Interaction) : Engine :=
  { medications := meds.foldl dictInsert [], interactions := inters }

/-- The exact-match test of `find_medication` (src/main.py lines 98-100):
display name, generic name, or any brand alias equals the normalized input. -/
def medExact (q : Str) (m : Drug) : Bool :=
  decide (pyLower m.name = q) || decide (pyLower m.generic_name = q) ||
    m.brand_names.any (fun b => decide (pyLower b = q))

/-- The substring-match test of `find_medication` (src/main.py lines 104-106):
the normalized input occurs inside the display name, generic name, or a brand alias. -/
def medSubstr (q : Str) (m : Drug) : Bool :=
  isSubstr q (pyLower m.name) || isSubstr q (pyLower m.generic_name) ||
    m.brand_names.any (fun b => isSubstr q (pyLower b))

/-- The whole per-drug test of the loop body of `find_medication`
(lines 96-107): the loop returns the current drug when either of its two
`if` blocks fires, i.e. when the drug matches exactly or by substring. -/
def medMatches (q : Str) (m : Drug) : Bool := medExact q m || medSubstr q m

/-- `MedicationSafetyEngine.find_medication` (src/main.py lines 92-109).
A single loop over the drugs in iteration order; for each drug the exact
test runs before the substring test, and the first drug passing either
test is returned. -/
def find_medication (e : Engine) (name : Str) : Option Drug :=
  e.medications.find? (fun m => medMatches (normalizeName name) m)

/-- `MedicationSafetyEngine.check_interactions` (src/main.py lines 111-122):
keep every stored interaction whose two endpoints are both members of the
given id list. -/
def check_interactions (e : Engine) (med_ids : List Str) : List Interaction :=
  e.interactions.filter (fun i => decide (i.drug_a ∈ med_ids) && decide (i.drug_b ∈ med_ids))

/-- The resolution loop of `analyze_medications` (src/main.py lines 127-134):
resolve each name, silently dropping the names that resolve to nothing. -/
def resolveAll (e : Engine) (names : List Str) : List Drug :=
  names.filterMap (fun n => find_medication e n)

/-- One severity bucket comprehension of `analyze_medications`
(src/main.py lines 143-147). -/
def sevFilter (s : SeverityFlag) (l : List Interaction) : List Interaction :=
  l.filter (fun i => decide (i.severity = s))

/-- Verdict string for a non-empty black bucket (line 151). -/
def riskCritical : Str := "CRITICAL - CONTRAINDICATED COMBINATION".toList

/-- Verdict string for a non-empty red bucket (line 153). -/
def riskHigh : Str := "HIGH - DANGEROUS COMBINATION".toList

/-- Verdict string for a non-empty orange bucket (line 155). -/
def riskModerateHigh : Str := "MODERATE-HIGH - MAJOR WARNINGS".toList

/-- Verdict string for a non-empty yellow bucket (line 157). -/
def riskModerate : Str := "MODERATE - MONITOR CLOSELY".toList

/-- Baseline verdict string (line 159). -/
def riskLow : Str := "LOW - GENERALLY SAFE".toList

/-- The overall-risk ladder of `analyze_medications` (src/main.py lines 149-159). -/
def overallRisk (b r o y : List Interaction) : Str :=
  if b ≠ [] then riskCritical
  else if r ≠ [] then riskHigh
  else if o ≠ [] then riskModerateHigh
  else if y ≠ [] then riskModerate
  else riskLow

/-- Construction of a `DrugProfile` from a drug record (src/main.py lines 168-178). -/
def drugToProfile (m : Drug) : DrugProfile :=
  { name := m.name
  , generic_name := m.generic_name
  , brand_names := m.brand_names
  , drug_class := m.drug_class
  , black_box_warning := m.black_box_warning
  , cyp_metabolism := m.cyp_metabolism
  , contraindications := m.contraindications
  , side_effects := m.side_effects }

/-- Header line of the BLACK_FLAG recommendation section (line 207). -/
def recCriticalHeader : Str :=
  "‚ö†Ô∏è CRITICAL: This combination is CONTRAINDICATED. Do NOT use together without specialist consultation.".toList

/-- Header line of the RED_FLAG recommendation section (line 212). -/
def recDangerHeader : Str :=
  "‚ö†Ô∏è DANGEROUS: Serious interaction risk detected. Requires immediate medical review.".toList

/-- Header line of the ORANGE_FLAG recommendation section (line 217). -/
def recWarnHeader : Str :=
  "‚ö†Ô∏è WARNING: Major interactions detected. Close monitoring required.".toList

/-- Header line of the black-box-warning section (line 224). -/
def recBBWHeader : Str := "‚ö´ BLACK BOX WARNINGS:".toList

/-- The indentation-and-arrow piece of each per-item line (lines 209, 214, 219, 227). -/
def recArrow : Str := "   ‚Üí ".toList

/-- The fixed general-precautions block (src/main.py lines 231-235). -/
def generalBlock : List Str :=
  [ "üìã General Recommendations:".toList
  , "   ‚Ä¢ Consult prescribing physician or pharmacist immediately".toList
  , "   ‚Ä¢ Do not start, stop, or change doses without medical supervision".toList
  , "   ‚Ä¢ Monitor for signs of adverse effects".toList
  , "   ‚Ä¢ Keep all healthcare providers informed of all medications".toList ]

/-- The warning text read from an optional black-box-warning object. -/
def bbwWarningText : Option BlackBoxWarning → Str
  | some b => b.warning
  | none => []

/-- One line of the black-box-warning section (line 227). -/
def bbwLine (nm w : Str) : Str := recArrow ++ nm ++ (": ".toList) ++ w

/-- The black-box-warning section over drug records (src/main.py lines 222-227). -/
def bbwSectionD (meds : List Drug) : List Str :=
  if (meds.filter (fun m => m.black_box_warning.isSome)) = [] then []
  else recBBWHeader ::
    (meds.filter (fun m => m.black_box_warning.isSome)).map
      (fun m => bbwLine m.name (bbwWarningText m.black_box_warning))

/-- `MedicationSafetyEngine._generate_recommendations` (src/main.py lines 202-237):
the sequential conditional appends of the Python code, rendered as the
concatenation of the blocks each `if` contributes. -/
def generateRecommendations (medications : List Drug)
    (black_flags red_flags orange_flags : List Interaction) : List Str :=
  (if black_flags ≠ [] then
      recCriticalHeader :: black_flags.map (fun f => recArrow ++ f.recommendation)
    else []) ++
  (if red_flags ≠ [] then
      recDangerHeader :: red_flags.map (fun f => recArrow ++ f.recommendation)
    else []) ++
  (if orange_flags ≠ [] then
      recWarnHeader :: orange_flags.map (fun f => recArrow ++ f.recommendation)
    else []) ++
  bbwSectionD medications ++
  (if black_flags ≠ [] ∨ red_flags ≠ [] then generalBlock else [])

/-- The success path of `analyze_medications` (src/main.py lines 139-200):
everything after the not-found check, packaged as the returned response. -/
def buildResponse (e : Engine) (names : List Str) : SafetyAnalysisResponse :=
  let found_meds := resolveAll e names
  let med_ids := found_meds.map (fun m => m.id)
  let interactions := check_interactions e med_ids
  let black_flags := sevFilter SeverityFlag.BLACK_FLAG interactions
  let red_flags := sevFilter SeverityFlag.RED_FLAG interactions
  let orange_flags := sevFilter SeverityFlag.ORANGE_FLAG interactions
  let yellow_flags := sevFilter SeverityFlag.YELLOW_FLAG interactions
  let green_flags := sevFilter SeverityFlag.GREEN_FLAG interactions
  { analyzed_medications := found_meds.map drugToProfile
  , interactions := interactions
  , black_flags := black_flags
  , red_flags := red_flags
  , orange_flags := orange_flags
  , yellow_flags := yellow_flags
  , green_flags := green_flags
  , overall_risk_level := overallRisk black_flags red_flags orange_flags yellow_flags
  , risk_summary :=
    { total_medications := found_meds.length
    , total_interactions := interactions.length
    , black_flags := black_flags.length
    , red_flags := red_flags.length
    , orange_flags := orange_flags.length
    , yellow_flags := yellow_flags.length
    , green_flags := green_flags.length
    , medications_with_black_box_warnings :=
        (found_meds.filter (fun m => m.black_box_warning.isSome)).length }
  , clinical_recommendations :=
      generateRecommendations found_meds black_flags red_flags orange_flags }

/-- The 404 error of `analyze_medications` (src/main.py line 137). -/
def noMedsError : HTTPError :=
  { status := 404, detail := "No medications found in database".toList }

/-- `MedicationSafetyEngine.analyze_medications` (src/main.py lines 124-200). -/
def analyze_medications (e : Engine) (names : List Str) :
    Except HTTPError SafetyAnalysisResponse :=
  if (resolveAll e names).isEmpty then Except.error noMedsError
  else Except.ok (buildResponse e names)

/-- An analysis call with the engine state threaded explicitly: the Python
method reads `self.medications` and `self.interactions` and never assigns to
`self`, so the state component passes through unchanged. -/
def engineCall (e : Engine) (names : List Str) :
    Except HTTPError SafetyAnalysisResponse × Engine :=
  (analyze_medications e names, e)

/-- Spec-side section combinator: a header plus one arrowed line per
interaction, emitted only when the bucket is non-empty. -/
def flagSection (hdr : Str) (flags : List Interaction) : List Str :=
  if flags ≠ [] then hdr :: flags.map (fun f => recArrow ++ f.recommendation) else []

/-- Spec-side black-box-warning section, phrased over the returned
`DrugProfile` list. -/
def bbwSectionP (ps : List DrugProfile) : List Str :=
  if (ps.filter (fun p => p.black_box_warning.isSome)) = [] then []
  else recBBWHeader ::
    (ps.filter (fun p => p.black_box_warning.isSome)).map
      (fun p => bbwLine p.name (bbwWarningText p.black_box_warning))

/-- Spec-side general-precautions section: the fixed boilerplate block,
emitted exactly when a BLACK_FLAG or RED_FLAG interaction was found. -/
def generalSection (b r : List Interaction) : List Str :=
  if b ≠ [] ∨ r ≠ [] then generalBlock else []

/-- Concrete drug whose display name strictly contains the display name of
`dW` below; first in iteration order of `engA`. -/
def dWS : Drug :=
  { id := "x1".toList, name := "abc".toList, generic_name := "abcg".toList
  , brand_names := [], drug_class := "nc".toList, black_box_warning := none
  , cyp_metabolism := [], contraindications := [], side_effects := [] }

/-- Concrete drug with display name `ab`; second in iteration order of `engA`. -/
def dW : Drug :=
  { id := "x2".toList, name := "ab".toList, generic_name := "abg".toList
  , brand_names := [], drug_class := "nc".toList, black_box_warning := none
  , cyp_metabolism := [], contraindications := [], side_effects := [] }

/-- Concrete two-drug knowledge base exercising the name-resolution order. -/
def engA : Engine := { medications := [dWS, dW], interactions := [] }

/-- Concrete drug reachable through two different exact strings
(display name `sela` and brand alias `selb`). -/
def dS : Drug :=
  { id := "s".toList, name := "sela".toList, generic_name := "selg".toList
  , brand_names := ["selb".toList], drug_class := "nc".toList
  , black_box_warning := none, cyp_metabolism := [], contraindications := []
  , side_effects := [] }

/-- Concrete stored interaction whose two endpoints are the same drug `dS`. -/
def iSS : Interaction :=
  { drug_a := "s".toList, drug_b := "s".toList
  , severity := SeverityFlag.GREEN_FLAG, mechanism := "m".toList
  , description := "d".toList, clinical_effects := "c".toList
  , recommendation := "r".toList, evidence_level := "e".toList
  , source := "z".toList }

/-- Concrete one-drug knowledge base with a stored self-interaction. -/
def engS : Engine := { medications := [dS], interactions := [iSS] }

/-! ## Helper lemmas -/

theorem isPrefixStr_iff (q : Str) : ∀ l : Str, isPrefixStr q l = true ↔ q <+: l := by
  induction q with
  | nil => intro l; simp [isPrefixStr]
  | cons a xs ih =>
    intro l
    cases l with
    | nil => simp [isPrefixStr]
    | cons b ys => simp [isPrefixStr, List.cons_prefix_cons, ih]

/-- The executable substring test agrees with contiguous-occurrence, so it is
a faithful rendering of the Python `in` operator on strings. -/
theorem isSubstr_correct (q : Str) : ∀ l : Str, isSubstr q l = true ↔ q <:+: l := by
  intro l
  induction l with
  | nil => simp [isSubstr, isPrefixStr_iff, List.infix_nil, List.prefix_nil]
  | cons b t ih => simp [isSubstr, isPrefixStr_iff, List.infix_cons_iff, ih]

theorem isSubstr_nil_left (l : Str) : isSubstr [] l = true := by
  cases l <;> simp [isSubstr, isPrefixStr]

theorem mem_sevFilter {i : Interaction} {s : SeverityFlag} {l : List Interaction} :
    i ∈ sevFilter s l ↔ i ∈ l ∧ i.severity = s := by
  simp [sevFilter, List.mem_filter]

theorem sevFilter_eq_nil {s : SeverityFlag} {l : List Interaction} :
    sevFilter s l = [] ↔ ∀ i ∈ l, i.severity ≠ s := by
  simp [sevFilter, List.filter_eq_nil_iff]

theorem sevFilter_length_partition (l : List Interaction) :
    (sevFilter SeverityFlag.BLACK_FLAG l).length + (sevFilter SeverityFlag.RED_FLAG l).length +
      (sevFilter SeverityFlag.ORANGE_FLAG l).length + (sevFilter SeverityFlag.YELLOW_FLAG l).length +
      (sevFilter SeverityFlag.GREEN_FLAG l).length = l.length := by
  induction l with
  | nil => rfl
  | cons i t ih =>
    simp only [sevFilter, List.filter_cons] at *
    cases hs : i.severity <;> simp [hs] <;> omega

theorem resolveAll_eq_nil {e : Engine} {names : List Str} :
    resolveAll e names = [] ↔ ∀ n ∈ names, find_medication e n = none := by
  simp [resolveAll, List.filterMap_eq_nil_iff]

theorem analyze_eq_ok {e : Engine} {names : List Str} {resp : SafetyAnalysisResponse} :
    analyze_medications e names = Except.ok resp ↔
      resolveAll e names ≠ [] ∧ resp = buildResponse e names := by
  unfold analyze_medications
  by_cases h : (resolveAll e names).isEmpty
  · simp only [if_pos h]
    rw [List.isEmpty_iff] at h
    simp [h]
  · simp only [if_neg h]
    rw [List.isEmpty_iff] at h
    simp only [Except.ok.injEq]
    constructor
    · intro hh
      exact ⟨h, hh.symm⟩
    · intro hh
      exact hh.2.symm

theorem analyze_eq_error {e : Engine} {names : List Str} {err : HTTPError} :
    analyze_medications e names = Except.error err ↔
      resolveAll e names = [] ∧ err = noMedsError := by
  unfold analyze_medications
  by_cases h : (resolveAll e names).isEmpty
  · simp only [if_pos h]
    rw [List.isEmpty_iff] at h
    simp only [Except.error.injEq]
    constructor
    · intro hh
      exact ⟨h, hh.symm⟩
    · intro hh
      exact hh.2.symm
  · simp only [if_neg h]
    rw [List.isEmpty_iff] at h
    simp [h]

theorem check_interactions_congr {e : Engine} {ids1 ids2 : List Str}
    (h : ∀ x, x ∈ ids1 ↔ x ∈ ids2) :
    check_interactions e ids1 = check_interactions e ids2 := by
  unfold check_interactions
  exact List.filter_congr (fun i _ => by simp [h])

theorem mem_check_interactions {e : Engine} {ids : List Str} {i : Interaction} :
    i ∈ check_interactions e ids ↔
      i ∈ e.interactions ∧ i.drug_a ∈ ids ∧ i.drug_b ∈ ids := by
  simp [check_interactions, List.mem_filter]

theorem toLower_whitespace {c : Char} (h : c.isWhitespace = true) :
    (Char.toLower c).isWhitespace = true := by
  simp [Char.isWhitespace] at h
  rcases h with ((h | h) | h) | h <;> subst h <;> decide

theorem normalizeName_blank {s : Str} (h : ∀ c ∈ s, c.isWhitespace) :
    normalizeName s = [] := by
  unfold normalizeName pyLower pyStrip
  have h2 : (s.map Char.toLower).dropWhile Char.isWhitespace = [] := by
    rw [List.dropWhile_eq_nil_iff]
    intro c hc
    rcases List.mem_map.mp hc with ⟨a, ha, rfl⟩
    exact toLower_whitespace (h a ha)
  rw [h2]
  rfl

/-! ## Claim theorems -/

/-- Claim C1, counterexample: with knowledge base `engA`, the input `ab` is
returned as the first drug `dWS` through its substring test alone, even
though the later drug `dW` matches the normalized input exactly — so the
substring pass is reached although an exact match exists in the drug set,
refuting the non-interleaved two-pass reading. -/
theorem find_medication_interleaves_cex :
    find_medication engA ("ab".toList) = some dWS ∧
    medExact (normalizeName ("ab".toList)) dWS = false ∧
    medSubstr (normalizeName ("ab".toList)) dWS = true ∧
    dW ∈ engA.medications ∧
    medExact (normalizeName ("ab".toList)) dW = true ∧
    dWS ≠ dW := by
  decide

/-- Claim C1, amended: `find_medication` makes one pass, checking each drug
exactly-then-by-substring; it returns a drug exactly when that drug passes
either test and every drug earlier in iteration order fails both tests, so
exact-over-substring precedence holds only within a single drug, not across
the whole knowledge base. -/
theorem find_medication_first_match (e : Engine) (name : Str) (d : Drug) :
    find_medication e name = some d ↔
      medMatches (normalizeName name) d = true ∧
      ∃ pre post, e.medications = pre ++ d :: post ∧
        ∀ m ∈ pre, medMatches (normalizeName name) m = false := by
  unfold find_medication
  rw [List.find?_eq_some]
  constructor
  · rintro ⟨hp, as, bs, heq, hall⟩
    refine ⟨hp, as, bs, heq, fun m hm => ?_⟩
    have := hall m hm
    simpa using this
  · rintro ⟨hp, pre, post, heq, hpre⟩
    refine ⟨hp, pre, post, heq, fun a ha => ?_⟩
    simpa using hpre a ha

/-- Claim C1, witness: the first-match characterization evaluated on the
concrete knowledge base `engA` at input `ab`. -/
theorem find_medication_first_match_witness :
    find_medication engA ("ab".toList) = some dWS :=
  (find_medication_first_match engA ("ab".toList) dWS).mpr
    ⟨by decide, [], [dW], rfl, by simp⟩

/-- Claim C2: the code has no guard for blank input.  An empty or
whitespace-only name normalizes to the empty string, the empty string is a
substring of every drug name, and so the first drug of the knowledge base
is returned instead of the not-found signal. -/
theorem find_medication_blank_returns_first (e : Engine) (d : Drug) (rest : List Drug)
    (s : Str) (hmeds : e.medications = d :: rest) (hblank : ∀ c ∈ s, c.isWhitespace) :
    find_medication e s = some d := by
  have hq : normalizeName s = [] := normalizeName_blank hblank
  unfold find_medication
  rw [hmeds, hq]
  apply List.find?_cons_of_pos
  unfold medMatches medSubstr
  simp [isSubstr_nil_left]

/-- Claim C2, witness: the blank-input behaviour evaluated on the concrete
knowledge base `engA` for the empty input and a whitespace-only input. -/
theorem find_medication_blank_returns_first_witness :
    find_medication engA [] = some dWS ∧
    find_medication engA ("   ".toList) = some dWS :=
  ⟨find_medication_blank_returns_first engA dWS [dW] [] rfl (by simp)
  , find_medication_blank_returns_first engA dWS [dW] ("   ".toList) rfl (by decide)⟩

/-- Claim C3, counterexample: `dW` is in the knowledge base `engA`, yet
`find_medication` on its exact display name returns the earlier drug `dWS`,
whose name merely contains the input — so an exact name does not always
resolve to its own drug. -/
theorem find_medication_exact_name_cex :
    dW ∈ engA.medications ∧
    find_medication engA dW.name = some dWS ∧
    dWS ≠ dW := by
  decide

/-- Claim C3, amended: for a drug `d` of the knowledge base and an input
that lowercases-and-strips to `d`'s lowercased display name, generic name,
or a brand alias, `find_medication` always returns some drug, and it
returns `d` itself whenever no drug earlier in iteration order matches
exactly or by substring. -/
theorem find_medication_exact_name_resolves (e : Engine) (d : Drug) (s : Str)
    (hmem : d ∈ e.medications)
    (hq : normalizeName s = pyLower d.name ∨ normalizeName s = pyLower d.generic_name ∨
          ∃ b ∈ d.brand_names, normalizeName s = pyLower b) :
    (∃ d2, find_medication e s = some d2) ∧
    ∀ pre post, e.medications = pre ++ d :: post →
      (∀ m ∈ pre, medMatches (normalizeName s) m = false) →
      find_medication e s = some d := by
  have hx : medExact (normalizeName s) d = true := by
    unfold medExact
    rcases hq with hq | hq | ⟨b, hb, hq⟩
    · simp [hq]
    · simp [hq]
    · refine Bool.or_eq_true_iff.mpr (Or.inr ?_)
      exact List.any_eq_true.mpr ⟨b, hb, by simp [hq]⟩
  have hm : medMatches (normalizeName s) d = true := by
    unfold medMatches
    simp [hx]
  constructor
  · have : (e.medications.find? (fun m => medMatches (normalizeName s) m)).isSome :=
      List.find?_isSome.mpr ⟨d, hmem, hm⟩
    rcases Option.isSome_iff_exists.mp this with ⟨d2, hd2⟩
    exact ⟨d2, hd2⟩
  · intro pre post heq hpre
    unfold find_medication
    rw [heq]
    rw [List.find?_eq_some]
    exact ⟨hm, pre, post, rfl, fun a ha => by simpa using hpre a ha⟩

/-- Claim C3, witness: the amended statement evaluated on `engA` for the
drug `dWS` and the cased, whitespace-padded input `" ABC "`. -/
theorem find_medication_exact_name_resolves_witness :
    find_medication engA (" ABC ".toList) = some dWS :=
  (find_medication_exact_name_resolves engA dWS (" ABC ".toList) (by decide)
    (Or.inl (by decide))).2 [] [dW] rfl (by simp)

theorem risk_ladder_on (I : List Interaction) :
    ((∃ i ∈ I, i.severity = SeverityFlag.BLACK_FLAG) →
      overallRisk (sevFilter SeverityFlag.BLACK_FLAG I) (sevFilter SeverityFlag.RED_FLAG I)
        (sevFilter SeverityFlag.ORANGE_FLAG I) (sevFilter SeverityFlag.YELLOW_FLAG I) =
        riskCritical) ∧
    ((∀ i ∈ I, i.severity ≠ SeverityFlag.BLACK_FLAG) →
      (∃ i ∈ I, i.severity = SeverityFlag.RED_FLAG) →
      overallRisk (sevFilter SeverityFlag.BLACK_FLAG I) (sevFilter SeverityFlag.RED_FLAG I)
        (sevFilter SeverityFlag.ORANGE_FLAG I) (sevFilter SeverityFlag.YELLOW_FLAG I) =
        riskHigh) ∧
    ((∀ i ∈ I, i.severity ≠ SeverityFlag.BLACK_FLAG ∧ i.severity ≠ SeverityFlag.RED_FLAG) →
      (∃ i ∈ I, i.severity = SeverityFlag.ORANGE_FLAG) →
      overallRisk (sevFilter SeverityFlag.BLACK_FLAG I) (sevFilter SeverityFlag.RED_FLAG I)
        (sevFilter SeverityFlag.ORANGE_FLAG I) (sevFilter SeverityFlag.YELLOW_FLAG I) =
        riskModerateHigh) ∧
    ((∀ i ∈ I, i.severity ≠ SeverityFlag.BLACK_FLAG ∧ i.severity ≠ SeverityFlag.RED_FLAG ∧
        i.severity ≠ SeverityFlag.ORANGE_FLAG) →
      (∃ i ∈ I, i.severity = SeverityFlag.YELLOW_FLAG) →
      overallRisk (sevFilter SeverityFlag.BLACK_FLAG I) (sevFilter SeverityFlag.RED_FLAG I)
        (sevFilter SeverityFlag.ORANGE_FLAG I) (sevFilter SeverityFlag.YELLOW_FLAG I) =
        riskModerate) ∧
    (overallRisk (sevFilter SeverityFlag.BLACK_FLAG I) (sevFilter SeverityFlag.RED_FLAG I)
        (sevFilter SeverityFlag.ORANGE_FLAG I) (sevFilter SeverityFlag.YELLOW_FLAG I) =
        riskLow ↔ ∀ i ∈ I, i.severity = SeverityFlag.GREEN_FLAG) := by
  have hbne : ∀ s : SeverityFlag, sevFilter s I ≠ [] ↔ ∃ i ∈ I, i.severity = s := by
    intro s
    rw [Ne, sevFilter_eq_nil]
    push_neg
    rfl
  refine ⟨?_, ?_, ?_, ?_, ?_⟩
  · intro hex
    unfold overallRisk
    rw [if_pos ((hbne _).mpr hex)]
  · intro hall hex
    have hb : sevFilter SeverityFlag.BLACK_FLAG I = [] := sevFilter_eq_nil.mpr hall
    unfold overallRisk
    rw [if_neg (not_not_intro hb), if_pos ((hbne _).mpr hex)]
  · intro hall hex
    have hb : sevFilter SeverityFlag.BLACK_FLAG I = [] :=
      sevFilter_eq_nil.mpr (fun i hi => (hall i hi).1)
    have hr : sevFilter SeverityFlag.RED_FLAG I = [] :=
      sevFilter_eq_nil.mpr (fun i hi => (hall i hi).2)
    unfold overallRisk
    rw [if_neg (not_not_intro hb), if_neg (not_not_intro hr), if_pos ((hbne _).mpr hex)]
  · intro hall hex
    have hb : sevFilter SeverityFlag.BLACK_FLAG I = [] :=
      sevFilter_eq_nil.mpr (fun i hi => (hall i hi).1)
    have hr : sevFilter SeverityFlag.RED_FLAG I = [] :=
      sevFilter_eq_nil.mpr (fun i hi => (hall i hi).2.1)
    have ho : sevFilter SeverityFlag.ORANGE_FLAG I = [] :=
      sevFilter_eq_nil.mpr (fun i hi => (hall i hi).2.2)
    unfold overallRisk
    rw [if_neg (not_not_intro hb), if_neg (not_not_intro hr), if_neg (not_not_intro ho),
      if_pos ((hbne _).mpr hex)]
  · constructor
    · intro hlow
      have hb : sevFilter SeverityFlag.BLACK_FLAG I = [] := by
        by_contra hb
        unfold overallRisk at hlow
        rw [if_pos hb] at hlow
        exact absurd hlow (by decide)
      have hr : sevFilter SeverityFlag.RED_FLAG I = [] := by
        by_contra hr
        unfold overallRisk at hlow
        rw [if_neg (not_not_intro hb), if_pos hr] at hlow
        exact absurd hlow (by decide)
      have ho : sevFilter SeverityFlag.ORANGE_FLAG I = [] := by
        by_contra ho
        unfold overallRisk at hlow
        rw [if_neg (not_not_intro hb), if_neg (not_not_intro hr), if_pos ho] at hlow
        exact absurd hlow (by decide)
      have hy : sevFilter SeverityFlag.YELLOW_FLAG I = [] := by
        by_contra hy
        unfold overallRisk at hlow
        rw [if_neg (not_not_intro hb), if_neg (not_not_intro hr), if_neg (not_not_intro ho),
          if_pos hy] at hlow
        exact absurd hlow (by decide)
      intro i hi
      cases hs : i.severity with
      | BLACK_FLAG => exact absurd (hb ▸ mem_sevFilter.mpr ⟨hi, hs⟩) (List.not_mem_nil i)
      | RED_FLAG => exact absurd (hr ▸ mem_sevFilter.mpr ⟨hi, hs⟩) (List.not_mem_nil i)
      | ORANGE_FLAG => exact absurd (ho ▸ mem_sevFilter.mpr ⟨hi, hs⟩) (List.not_mem_nil i)
      | YELLOW_FLAG => exact absurd (hy ▸ mem_sevFilter.mpr ⟨hi, hs⟩) (List.not_mem_nil i)
      | GREEN_FLAG => rfl
    · intro hall
      have hb : sevFilter SeverityFlag.BLACK_FLAG I = [] :=
        sevFilter_eq_nil.mpr (fun i hi => by simp [hall i hi])
      have hr : sevFilter SeverityFlag.RED_FLAG I = [] :=
        sevFilter_eq_nil.mpr (fun i hi => by simp [hall i hi])
      have ho : sevFilter SeverityFlag.ORANGE_FLAG I = [] :=
        sevFilter_eq_nil.mpr (fun i hi => by simp [hall i hi])
      have hy : sevFilter SeverityFlag.YELLOW_FLAG I = [] :=
        sevFilter_eq_nil.mpr (fun i hi => by simp [hall i hi])
      unfold overallRisk
      rw [if_neg (not_not_intro hb), if_neg (not_not_intro hr), if_neg (not_not_intro ho),
        if_neg (not_not_intro hy)]

/-- Claim C4: the overall risk verdict is a precedence ladder over the
matched interactions — any BLACK_FLAG forces the critical verdict, else any
RED_FLAG the high verdict, then ORANGE_FLAG, then YELLOW_FLAG, and the
baseline low-risk verdict is produced exactly when every matched
interaction (possibly none) is GREEN_FLAG. -/
theorem analyze_overall_risk_ladder (e : Engine) (names : List Str)
    (resp : SafetyAnalysisResponse)
    (h : analyze_medications e names = Except.ok resp) :
    ((∃ i ∈ resp.interactions, i.severity = SeverityFlag.BLACK_FLAG) →
      resp.overall_risk_level = riskCritical) ∧
    ((∀ i ∈ resp.interactions, i.severity ≠ SeverityFlag.BLACK_FLAG) →
      (∃ i ∈ resp.interactions, i.severity = SeverityFlag.RED_FLAG) →
      resp.overall_risk_level = riskHigh) ∧
    ((∀ i ∈ resp.interactions, i.severity ≠ SeverityFlag.BLACK_FLAG ∧
        i.severity ≠ SeverityFlag.RED_FLAG) →
      (∃ i ∈ resp.interactions, i.severity = SeverityFlag.ORANGE_FLAG) →
      resp.overall_risk_level = riskModerateHigh) ∧
    ((∀ i ∈ resp.interactions, i.severity ≠ SeverityFlag.BLACK_FLAG ∧
        i.severity ≠ SeverityFlag.RED_FLAG ∧ i.severity ≠ SeverityFlag.ORANGE_FLAG) →
      (∃ i ∈ resp.interactions, i.severity = SeverityFlag.YELLOW_FLAG) →
      resp.overall_risk_level = riskModerate) ∧
    (resp.overall_risk_level = riskLow ↔
      ∀ i ∈ resp.interactions, i.severity = SeverityFlag.GREEN_FLAG) := by
  rcases analyze_eq_ok.mp h with ⟨-, rfl⟩
  exact risk_ladder_on (check_interactions e ((resolveAll e names).map (fun m => m.id)))

/-- Claim C4, witness: the ladder applied to the concrete analysis of
`engS` over one name, whose single matched interaction is GREEN_FLAG. -/
theorem analyze_overall_risk_ladder_witness :
    (buildResponse engS ["sela".toList]).overall_risk_level = riskLow :=
  ((analyze_overall_risk_ladder engS ["sela".toList]
    (buildResponse engS ["sela".toList]) rfl).2.2.2.2).mpr (by decide)

/-- Claim C5: the analysis fails — always with the 404 not-found error —
exactly when no input name resolves to a drug; whenever at least one name
resolves, the analysis succeeds and its medication list is exactly the
per-name resolutions with the unresolvable names silently dropped. -/
theorem analyze_notFound_iff_none_resolve (e : Engine) (names : List Str) :
    (analyze_medications e names = Except.error noMedsError ↔
      ∀ n ∈ names, find_medication e n = none) ∧
    (∀ err, analyze_medications e names = Except.error err → err = noMedsError) ∧
    ((∃ n ∈ names, (find_medication e n).isSome) →
      analyze_medications e names = Except.ok (buildResponse e names)) ∧
    (∀ resp, analyze_medications e names = Except.ok resp →
      resp.analyzed_medications =
        (names.filterMap (fun n => find_medication e n)).map drugToProfile) := by
  refine ⟨?_, ?_, ?_, ?_⟩
  · rw [analyze_eq_error]
    simp [resolveAll_eq_nil]
  · intro err herr
    exact (analyze_eq_error.mp herr).2
  · rintro ⟨n, hn, hs⟩
    refine analyze_eq_ok.mpr ⟨?_, rfl⟩
    intro hnil
    rw [resolveAll_eq_nil] at hnil
    rw [hnil n hn] at hs
    simp at hs
  · intro resp hresp
    rcases analyze_eq_ok.mp hresp with ⟨-, rfl⟩
    rfl

/-- Claim C5, witness: the empty input list fails with the 404 error. -/
theorem analyze_notFound_iff_none_resolve_witness :
    analyze_medications engA [] = Except.error noMedsError :=
  (analyze_notFound_iff_none_resolve engA []).1.mpr (by simp)

/-- Claim C7: the five severity buckets of a returned analysis are the
exact-tag partitions of the matched interactions, the counts reported in
the risk summary are the bucket lengths, and they sum to the reported total
interaction count. -/
theorem analyze_summary_partition (e : Engine) (names : List Str)
    (resp : SafetyAnalysisResponse)
    (h : analyze_medications e names = Except.ok resp) :
    (resp.risk_summary.black_flags + resp.risk_summary.red_flags +
      resp.risk_summary.orange_flags + resp.risk_summary.yellow_flags +
      resp.risk_summary.green_flags = resp.risk_summary.total_interactions) ∧
    resp.risk_summary.total_interactions = resp.interactions.length ∧
    resp.risk_summary.black_flags = resp.black_flags.length ∧
    resp.risk_summary.red_flags = resp.red_flags.length ∧
    resp.risk_summary.orange_flags = resp.orange_flags.length ∧
    resp.risk_summary.yellow_flags = resp.yellow_flags.length ∧
    resp.risk_summary.green_flags = resp.green_flags.length ∧
    (∀ i, i ∈ resp.black_flags ↔ i ∈ resp.interactions ∧
      i.severity = SeverityFlag.BLACK_FLAG) ∧
    (∀ i, i ∈ resp.red_flags ↔ i ∈ resp.interactions ∧
      i.severity = SeverityFlag.RED_FLAG) ∧
    (∀ i, i ∈ resp.orange_flags ↔ i ∈ resp.interactions ∧
      i.severity = SeverityFlag.ORANGE_FLAG) ∧
    (∀ i, i ∈ resp.yellow_flags ↔ i ∈ resp.interactions ∧
      i.severity = SeverityFlag.YELLOW_FLAG) ∧
    (∀ i, i ∈ resp.green_flags ↔ i ∈ resp.interactions ∧
      i.severity = SeverityFlag.GREEN_FLAG) := by
  rcases analyze_eq_ok.mp h with ⟨-, rfl⟩
  exact ⟨sevFilter_length_partition _, rfl, rfl, rfl, rfl, rfl, rfl,
    fun _ => mem_sevFilter, fun _ => mem_sevFilter, fun _ => mem_sevFilter,
    fun _ => mem_sevFilter, fun _ => mem_sevFilter⟩

/-- Claim C7, witness: the bucket counts of the concrete analysis of `engS`
sum to its total interaction count. -/
theorem analyze_summary_partition_witness :
    (buildResponse engS ["sela".toList]).risk_summary.black_flags +
      (buildResponse engS ["sela".toList]).risk_summary.red_flags +
      (buildResponse engS ["sela".toList]).risk_summary.orange_flags +
      (buildResponse engS ["sela".toList]).risk_summary.yellow_flags +
      (buildResponse engS ["sela".toList]).risk_summary.green_flags =
      (buildResponse engS ["sela".toList]).risk_summary.total_interactions :=
  (analyze_summary_partition engS ["sela".toList]
    (buildResponse engS ["sela".toList]) rfl).1

theorem count_filterMap_two {α β : Type} [DecidableEq α] [DecidableEq β]
    (f : α → Option β) (names : List α) (n1 n2 : α) (d : β)
    (h1 : n1 ∈ names) (h2 : n2 ∈ names) (hne : n1 ≠ n2)
    (f1 : f n1 = some d) (f2 : f n2 = some d) :
    2 ≤ (names.filterMap f).count d := by
  rcases List.append_of_mem h1 with ⟨u, v, rfl⟩
  have h2' : n2 ∈ u ∨ n2 ∈ v := by
    rcases List.mem_append.mp h2 with h | h
    · exact Or.inl h
    · rcases List.mem_cons.mp h with h | h
      · exact absurd h.symm hne
      · exact Or.inr h
  rw [List.filterMap_append, List.filterMap_cons_some f1, List.count_append,
    List.count_cons_self]
  rcases h2' with h | h
  · have hp : 0 < (u.filterMap f).count d :=
      List.count_pos_iff.mpr (List.mem_filterMap.mpr ⟨n2, h, f2⟩)
    omega
  · have hp : 0 < (v.filterMap f).count d :=
      List.count_pos_iff.mpr (List.mem_filterMap.mpr ⟨n2, h, f2⟩)
    omega

/-- Claim C6, counterexample: in `engS` the drug `dS` is resolved by the two
different inputs `sela` (display name) and `selb` (brand alias), and the
analysis reports the stored interaction `iSS` whose two endpoints are the
same drug — so a self-interaction can be reported. -/
theorem analyze_self_interaction_cex :
    find_medication engS ("sela".toList) = some dS ∧
    find_medication engS ("selb".toList) = some dS ∧
    "sela".toList ≠ "selb".toList ∧
    analyze_medications engS ["sela".toList, "selb".toList] =
      Except.ok (buildResponse engS ["sela".toList, "selb".toList]) ∧
    (buildResponse engS ["sela".toList, "selb".toList]).interactions = [iSS] ∧
    iSS.drug_a = iSS.drug_b := by
  exact ⟨by decide, by decide, by decide, rfl, by decide, by decide⟩

/-- Claim C6, amended: when the same drug is resolved by two different input
strings the analysis succeeds, lists that drug at least twice in the
analyzed-medication list, and the interaction lookup depends only on the
set of resolved identifiers (deduplication does not change it); a reported
interaction with equal endpoints can only be a record already stored with
equal endpoints — duplicate resolution never manufactures one. -/
theorem analyze_duplicate_resolution (e : Engine) (names : List Str) (n1 n2 : Str)
    (d : Drug) (h1 : n1 ∈ names) (h2 : n2 ∈ names) (hne : n1 ≠ n2)
    (f1 : find_medication e n1 = some d) (f2 : find_medication e n2 = some d) :
    analyze_medications e names = Except.ok (buildResponse e names) ∧
    2 ≤ (buildResponse e names).analyzed_medications.count (drugToProfile d) ∧
    check_interactions e ((resolveAll e names).map (fun m => m.id)) =
      check_interactions e (((resolveAll e names).map (fun m => m.id)).dedup) ∧
    ((∀ i ∈ e.interactions, i.drug_a ≠ i.drug_b) →
      ∀ i ∈ (buildResponse e names).interactions, i.drug_a ≠ i.drug_b) := by
  have hmem : d ∈ resolveAll e names := List.mem_filterMap.mpr ⟨n1, h1, f1⟩
  refine ⟨analyze_eq_ok.mpr ⟨List.ne_nil_of_mem hmem, rfl⟩, ?_, ?_, ?_⟩
  · exact le_trans
      (count_filterMap_two (fun n => find_medication e n) names n1 n2 d h1 h2 hne f1 f2)
      (List.count_le_count_map _ _ _)
  · exact check_interactions_congr (fun x => Iff.symm List.mem_dedup)
  · intro hstored i hi
    have hi2 : i ∈ check_interactions e ((resolveAll e names).map (fun m => m.id)) := hi
    exact hstored i (mem_check_interactions.mp hi2).1

/-- Claim C6, witness: the amended statement evaluated on `engS` with the
two inputs `sela` and `selb`, both resolving to `dS`. -/
theorem analyze_duplicate_resolution_witness :
    2 ≤ (buildResponse engS ["sela".toList, "selb".toList]).analyzed_medications.count
      (drugToProfile dS) :=
  (analyze_duplicate_resolution engS ["sela".toList, "selb".toList]
    ("sela".toList) ("selb".toList) dS (by simp) (by simp) (by decide)
    (by decide) (by decide)).2.1

theorem bbwSectionP_map (meds : List Drug) :
    bbwSectionP (meds.map drugToProfile) = bbwSectionD meds := by
  unfold bbwSectionP bbwSectionD
  rw [List.filter_map]
  have hc : ((fun p : DrugProfile => p.black_box_warning.isSome) ∘ drugToProfile) =
      (fun m : Drug => m.black_box_warning.isSome) := rfl
  rw [hc]
  by_cases h : meds.filter (fun m => m.black_box_warning.isSome) = []
  · simp [h]
  · rw [if_neg (by simpa using h), if_neg h, List.map_map]
    rfl

theorem generateRecommendations_sections (meds : List Drug)
    (b r o : List Interaction) :
    generateRecommendations meds b r o =
      flagSection recCriticalHeader b ++ flagSection recDangerHeader r ++
      flagSection recWarnHeader o ++ bbwSectionP (meds.map drugToProfile) ++
      generalSection b r := by
  rw [bbwSectionP_map]
  rfl

theorem flagSection_eq_nil (hdr : Str) (fs : List Interaction) :
    flagSection hdr fs = [] ↔ fs = [] := by
  unfold flagSection
  by_cases h : fs = []
  · simp [h]
  · simp [h]

theorem bbwSectionP_eq_nil (ps : List DrugProfile) :
    bbwSectionP ps = [] ↔ ∀ p ∈ ps, p.black_box_warning = none := by
  unfold bbwSectionP
  by_cases h : ps.filter (fun p => p.black_box_warning.isSome) = []
  · simp only [if_pos h, true_iff]
    rw [List.filter_eq_nil_iff] at h
    intro p hp
    have hn := h p hp
    cases hbw : p.black_box_warning with
    | none => rfl
    | some w => rw [hbw] at hn; simp at hn
  · rw [if_neg h]
    constructor
    · intro hc
      exact absurd hc (List.cons_ne_nil _ _)
    · intro hall
      exfalso
      apply h
      rw [List.filter_eq_nil_iff]
      intro p hp
      simp [hall p hp]

theorem generalSection_ne_nil (b r : List Interaction) :
    generalSection b r ≠ [] ↔ (b ≠ [] ∨ r ≠ []) := by
  unfold generalSection
  by_cases h : b ≠ [] ∨ r ≠ []
  · simp only [if_pos h, iff_true_intro h, iff_true]
    simp [generalBlock]
  · simp [h]

/-- Claim C8: the clinical-recommendation list of a returned analysis is the
concatenation, in fixed order, of the BLACK_FLAG section, the RED_FLAG
section, the ORANGE_FLAG section, the black-box-warning section over the
resolved drugs, and the general-precautions block; each flag section is
empty exactly when its bucket is, the warning section is empty exactly when
no resolved drug carries a black-box warning, and the general block appears
exactly when a BLACK_FLAG or RED_FLAG interaction was found.  The
decomposition mentions no YELLOW_FLAG or GREEN_FLAG data at all. -/
theorem analyze_recommendation_sections (e : Engine) (names : List Str)
    (resp : SafetyAnalysisResponse)
    (h : analyze_medications e names = Except.ok resp) :
    resp.clinical_recommendations =
      flagSection recCriticalHeader resp.black_flags ++
      flagSection recDangerHeader resp.red_flags ++
      flagSection recWarnHeader resp.orange_flags ++
      bbwSectionP resp.analyzed_medications ++
      generalSection resp.black_flags resp.red_flags ∧
    (flagSection recCriticalHeader resp.black_flags = [] ↔ resp.black_flags = []) ∧
    (flagSection recDangerHeader resp.red_flags = [] ↔ resp.red_flags = []) ∧
    (flagSection recWarnHeader resp.orange_flags = [] ↔ resp.orange_flags = []) ∧
    (bbwSectionP resp.analyzed_medications = [] ↔
      ∀ p ∈ resp.analyzed_medications, p.black_box_warning = none) ∧
    (generalSection resp.black_flags resp.red_flags ≠ [] ↔
      (resp.black_flags ≠ [] ∨ resp.red_flags ≠ [])) := by
  rcases analyze_eq_ok.mp h with ⟨-, rfl⟩
  exact ⟨generateRecommendations_sections (resolveAll e names) _ _ _,
    flagSection_eq_nil _ _, flagSection_eq_nil _ _, flagSection_eq_nil _ _,
    bbwSectionP_eq_nil _, generalSection_ne_nil _ _⟩

/-- Claim C8, witness: the section decomposition of the concrete analysis
of `engS` over one name. -/
theorem analyze_recommendation_sections_witness :
    (buildResponse engS ["sela".toList]).clinical_recommendations =
      flagSection recCriticalHeader (buildResponse engS ["sela".toList]).black_flags ++
      flagSection recDangerHeader (buildResponse engS ["sela".toList]).red_flags ++
      flagSection recWarnHeader (buildResponse engS ["sela".toList]).orange_flags ++
      bbwSectionP (buildResponse engS ["sela".toList]).analyzed_medications ++
      generalSection (buildResponse engS ["sela".toList]).black_flags
        (buildResponse engS ["sela".toList]).red_flags :=
  (analyze_recommendation_sections engS ["sela".toList]
    (buildResponse engS ["sela".toList]) rfl).1

/-- Claim C9: an analysis call leaves the engine state (drug index and
interaction list) unchanged, and running any other analysis first does not
change the result of a call — analysis is a pure function of the knowledge
base and the input names. -/
theorem analyze_call_pure (e : Engine) (names names2 : List Str) :
    (engineCall e names).2 = e ∧
    (engineCall ((engineCall e names2).2) names).1 = (engineCall e names).1 :=
  ⟨rfl, rfl⟩

/-- Claim C10: `check_interactions` depends only on the membership set of
the given identifier list, and its result is the in-order sublist of the
stored interaction list consisting of exactly the records with both
endpoints in that set. -/
theorem check_interactions_set_semantics (e : Engine) (ids1 ids2 : List Str)
    (h : ∀ x, x ∈ ids1 ↔ x ∈ ids2) :
    check_interactions e ids1 = check_interactions e ids2 ∧
    List.Sublist (check_interactions e ids1) e.interactions ∧
    ∀ i, i ∈ check_interactions e ids1 ↔
      i ∈ e.interactions ∧ i.drug_a ∈ ids1 ∧ i.drug_b ∈ ids1 :=
  ⟨check_interactions_congr h, List.filter_sublist _, fun _ => mem_check_interactions⟩

/-- Claim C10, witness: the set semantics evaluated on `engS` for two
identifier lists with equal membership but different multiplicity. -/
theorem check_interactions_set_semantics_witness :
    check_interactions engS ["s".toList] =
      check_interactions engS ["s".toList, "s".toList] :=
  (check_interactions_set_semantics engS ["s".toList] ["s".toList, "s".toList]
    (fun x => by simp)).1

end MedChecker
